import Mathlib

/-!
Verification of the GaseraMux operator front end (home tab core logic).

The definitions below are a shallow embedding of the JavaScript source:
  * static/js/home_tab_core.js : SSE reconciliation engine (SSEHandler),
    phase handling (applyPhase), the start countdown (btnStart click handler,
    startMeasurement) and the alert deduplicator (showAlert).
  * the jar visualization module (updateJarColors, resetJarStates,
    setAllJars, invertJars, applyJarMask, jar click handler) and the
    progress circle helpers (updateProgressCircle, updateRepeatInfo,
    updateCycleProgress, updateCircularProgress).

JavaScript numbers are modelled with exact rationals, extended with the
special values Infinity, -Infinity and NaN where the code can produce them
(division by zero in updateRepeatInfo).  DOM state (CSS classes on jars,
button disabled flags, window globals) is modelled as explicit record
fields; DOM writes that the engine performs are recorded in an Effects
record so that theorems can speak about which side effects a call emits.
-/

/-- Phase string constants, mirroring the string literals of the source. -/
def PHASE_IDLE : String := "IDLE"

def PHASE_MEASURING : String := "MEASURING"

def PHASE_PAUSED : String := "PAUSED"

def PHASE_SWITCHING : String := "SWITCHING"

def PHASE_HOMING : String := "HOMING"

def PHASE_ABORTED : String := "ABORTED"

/-- The list of the six recognized phase strings. -/
def recognizedPhases : List String :=
  [PHASE_IDLE, PHASE_MEASURING, PHASE_PAUSED, PHASE_SWITCHING, PHASE_HOMING, PHASE_ABORTED]

/-- Title of the abort run summary toast. -/
def TITLE_ABORTED : String := "Measurement Aborted"

/-- Title of the completion run summary toast. -/
def TITLE_COMPLETE : String := "Measurement Complete"

/-- Toast severity used for the abort summary. -/
def KIND_DANGER : String := "danger"

/-- Toast severity used for the completion summary. -/
def KIND_SUCCESS : String := "success"

/-- One jar (channel) of the grid: the CSS classes the scripts toggle.
The field active is the selection flag; sampling, sampled and paused are
the transient visual markers. -/
structure JarState where
  active : Bool
  sampling : Bool
  sampled : Bool
  paused : Bool
deriving DecidableEq, Repr

/-- A jar as created by the grid builder: no classes beyond jar itself. -/
def initJar : JarState := ⟨false, false, false, false⟩

/-- A jar that the user has selected (class active), no transient marker. -/
def activeJar : JarState := ⟨true, false, false, false⟩

/-- Visual status label for a jar showing the sampling class. -/
def VISUAL_SAMPLING : String := "SAMPLING"

/-- Visual status label for a jar showing the paused class. -/
def VISUAL_PAUSED : String := "PAUSED"

/-- Visual status label for a jar showing the sampled class. -/
def VISUAL_SAMPLED : String := "SAMPLED"

/-- Visual status label for a jar showing no transient class. -/
def VISUAL_IDLE : String := "IDLE"

/-- Visual status string derived from the CSS classes of a jar. -/
def jarVisual (j : JarState) : String :=
  if j.sampling then VISUAL_SAMPLING
  else if j.paused then VISUAL_PAUSED
  else if j.sampled then VISUAL_SAMPLED
  else VISUAL_IDLE

/-- Embedding of updateJarColors seen from a single jar: the early return
keeps an unselected jar untouched; otherwise the transient classes
sampling and paused are removed and the phase cases are applied. -/
def recolorJar (phase : String) (j : JarState) : JarState :=
  if ¬ j.active then j
  else
    let j1 : JarState := { j with sampling := false, paused := false }
    if phase = PHASE_MEASURING then { j1 with sampled := false, sampling := true }
    else if phase = PHASE_PAUSED then { j1 with sampled := false, paused := true }
    else if phase = PHASE_SWITCHING then { j1 with sampled := true }
    else j1

/-- Helper for updateJarColors: walk the jar list with its 0-based index,
recoloring exactly the jar whose data-id is ch + 1 (list index ch). -/
def updateJarColorsAux (ch : Int) (phase : String) : Nat → List JarState → List JarState
  | _, [] => []
  | i, j :: rest =>
      (if (i : Int) = ch then recolorJar phase j else j)
        :: updateJarColorsAux ch phase (i + 1) rest

/-- Embedding of window.updateJarColors: recolors the jar addressed by the
0-based channel index; a channel outside the grid finds no jar and is a
no-op, exactly as the querySelector miss in the source. -/
def updateJarColors (ch : Int) (phase : String) (jars : List JarState) : List JarState :=
  updateJarColorsAux ch phase 0 jars

/-- Embedding of window.resetJarStates: removes sampling and sampled from
every jar (selection and paused are untouched, as in the source). -/
def resetJarStates (jars : List JarState) : List JarState :=
  jars.map fun j => { j with sampling := false, sampled := false }

/-- Embedding of window.setAllJars: toggles the active class on every jar
to the given state; transient markers are not touched. -/
def setAllJars (b : Bool) (jars : List JarState) : List JarState :=
  jars.map fun j => { j with active := b }

/-- Embedding of window.invertJars: flips the active class on every jar. -/
def invertJars (jars : List JarState) : List JarState :=
  jars.map fun j => { j with active := ¬ j.active }

/-- Embedding of window.applyJarMask: sets each active flag from the mask,
missing mask entries being falsy. -/
def applyJarMask (mask : List Bool) (jars : List JarState) : List JarState :=
  (jars.enum).map fun p => { p.2 with active := mask.getD p.1 false }

/-- Embedding of window.getJarMask. -/
def getJarMask (jars : List JarState) : List Bool :=
  jars.map fun j => j.active

/-!  JavaScript numbers.  The progress helpers divide by possibly-zero
totals, so the embedding extends exact rationals with Infinity, -Infinity
and NaN and mirrors the JavaScript semantics of the operations the
helpers use: division, multiplication, the falsy-default idiom (x || 0)
and Math.min / Math.max. -/

/-- A JavaScript number: an exact rational, or one of the IEEE special
values the progress code can produce. -/
inductive JSNum where
  | num : Rat → JSNum
  | inf : JSNum
  | negInf : JSNum
  | nan : JSNum
deriving DecidableEq, Repr

/-- JavaScript division for the operand shapes the progress code meets:
finite / finite, with the zero-divisor cases giving NaN or signed
Infinity exactly as in JavaScript. -/
def jsDiv : JSNum → JSNum → JSNum
  | JSNum.nan, _ => JSNum.nan
  | _, JSNum.nan => JSNum.nan
  | JSNum.num a, JSNum.num b =>
      if b = 0 then
        (if a = 0 then JSNum.nan else if a > 0 then JSNum.inf else JSNum.negInf)
      else JSNum.num (a / b)
  | JSNum.inf, JSNum.num b => if b ≥ 0 then JSNum.inf else JSNum.negInf
  | JSNum.negInf, JSNum.num b => if b ≥ 0 then JSNum.negInf else JSNum.inf
  | JSNum.num _, JSNum.inf => JSNum.num 0
  | JSNum.num _, JSNum.negInf => JSNum.num 0
  | _, _ => JSNum.nan

/-- JavaScript multiplication on the same domain. -/
def jsMul : JSNum → JSNum → JSNum
  | JSNum.nan, _ => JSNum.nan
  | _, JSNum.nan => JSNum.nan
  | JSNum.num a, JSNum.num b => JSNum.num (a * b)
  | JSNum.inf, JSNum.num b =>
      if b > 0 then JSNum.inf else if b < 0 then JSNum.negInf else JSNum.nan
  | JSNum.num a, JSNum.inf =>
      if a > 0 then JSNum.inf else if a < 0 then JSNum.negInf else JSNum.nan
  | JSNum.negInf, JSNum.num b =>
      if b > 0 then JSNum.negInf else if b < 0 then JSNum.inf else JSNum.nan
  | JSNum.num a, JSNum.negInf =>
      if a > 0 then JSNum.negInf else if a < 0 then JSNum.inf else JSNum.nan
  | JSNum.inf, JSNum.inf => JSNum.inf
  | JSNum.negInf, JSNum.negInf => JSNum.inf
  | JSNum.inf, JSNum.negInf => JSNum.negInf
  | JSNum.negInf, JSNum.inf => JSNum.negInf

/-- The JavaScript idiom (x || 0): NaN and 0 are falsy, everything else
(including the infinities) is kept. -/
def jsOrZero : JSNum → JSNum
  | JSNum.nan => JSNum.num 0
  | JSNum.num a => if a = 0 then JSNum.num 0 else JSNum.num a
  | x => x

/-- Math.min: NaN is absorbing, infinities compare as extremes. -/
def jsMin : JSNum → JSNum → JSNum
  | JSNum.nan, _ => JSNum.nan
  | _, JSNum.nan => JSNum.nan
  | JSNum.num a, JSNum.num b => JSNum.num (min a b)
  | JSNum.inf, y => y
  | y, JSNum.inf => y
  | JSNum.negInf, _ => JSNum.negInf
  | _, JSNum.negInf => JSNum.negInf

/-- Math.max: NaN is absorbing, infinities compare as extremes. -/
def jsMax : JSNum → JSNum → JSNum
  | JSNum.nan, _ => JSNum.nan
  | _, JSNum.nan => JSNum.nan
  | JSNum.num a, JSNum.num b => JSNum.num (max a b)
  | JSNum.negInf, y => y
  | y, JSNum.negInf => y
  | JSNum.inf, _ => JSNum.inf
  | _, JSNum.inf => JSNum.inf

/-- Embedding of the clamping step of updateProgressCircle:
Math.max(0, Math.min(100, percent || 0)).  The result is always finite,
so it is returned as a rational; the impossible non-finite branch
returns 0 and is proved unreachable below. -/
def updateProgressCirclePct (percent : JSNum) : Rat :=
  match jsMax (JSNum.num 0) (jsMin (JSNum.num 100) (jsOrZero percent)) with
  | JSNum.num q => q
  | _ => 0

/-- Color range labels of updateProgressCircle. -/
def BUCKET_Q1 : String := "0-25"

/-- Second quartile label. -/
def BUCKET_Q2 : String := "26-50"

/-- Third quartile label. -/
def BUCKET_Q3 : String := "51-75"

/-- Fourth quartile label. -/
def BUCKET_Q4 : String := "76-100"

/-- Embedding of the colorRange computation of updateProgressCircle. -/
def colorRange (pct : Rat) : String :=
  if pct ≤ 25 then BUCKET_Q1
  else if pct ≤ 50 then BUCKET_Q2
  else if pct ≤ 75 then BUCKET_Q3
  else BUCKET_Q4

/-- Embedding of window.updateRepeatInfo restricted to the percent it
feeds the circle: total = repeatTotal || 0, pct = (rep / total) * 100,
then the clamp of updateProgressCircle. -/
def updateRepeatInfoPct (rep repeatTotal : JSNum) : Rat :=
  let total := jsOrZero repeatTotal
  updateProgressCirclePct (jsMul (jsDiv rep total) (JSNum.num 100))

/-- Embedding of window.updateCycleProgress restricted to the percent it
feeds the circle: the server-supplied percent is clamped unchanged. -/
def updateCycleProgressPct (pct : JSNum) : Rat :=
  updateProgressCirclePct pct

/-- Embedding of window.updateCircularProgress restricted to the percent
it feeds the circle: clamps, then updateProgressCircle clamps again. -/
def updateCircularProgressPct (percent : JSNum) : Rat :=
  updateProgressCirclePct (JSNum.num (updateProgressCirclePct percent))

/-!  The SSE progress event and the engine state. -/

/-- An inbound SSE progress event.  Every field is optional on the wire;
a field holding none models an absent JSON key.  Percent-like fields are
rationals, indices and counters integers, the phase a raw string. -/
structure SSEEvent where
  current_channel : Option Int
  repeat_index : Option Int
  repeatField : Option Int
  percent : Option Rat
  overall_percent : Option Rat
  phase : Option String
  step_index : Option Int
  enabled_count : Option Int
  repeat_total : Option Int
  total_steps : Option Int
  elapsed_seconds : Option Rat
  tt_seconds : Option Rat
  next_channel : Option Int
deriving DecidableEq, Repr

/-- An event with every field absent. -/
def emptyEvent : SSEEvent :=
  ⟨none, none, none, none, none, none, none, none, none, none, none, none, none⟩

/-- Extracted channel: d.current_channel with default 0. -/
def extractChannel (d : SSEEvent) : Int :=
  d.current_channel.getD 0

/-- Extracted phase: d.phase with default the IDLE string. -/
def extractPhase (d : SSEEvent) : String :=
  d.phase.getD PHASE_IDLE

/-- Embedding of window.isActivePhase.  The function is defined in a
script outside the visible sources; the inline fallback on the
isMeasurementRunning assignment in home_tab_core.js spells out exactly
this predicate, which also matches the specification of active phases. -/
def isActivePhase (p : String) : Bool :=
  p == PHASE_MEASURING || p == PHASE_PAUSED || p == PHASE_SWITCHING || p == PHASE_HOMING

/-- The mutable state the home tab scripts keep between events: the
last-seen channel and phase of SSEHandler, the jar grid, the button
flags, the running flag, the countdown timer of the start controller and
the measurementCycle counter of sessionStorage. -/
structure EngineState where
  currentChannel : Int
  currentPhase : Option String
  jars : List JarState
  btnStartDisabled : Bool
  btnAbortDisabled : Bool
  isMeasurementRunning : Bool
  countdownTimerSet : Bool
  countdownIntervalLive : Bool
  countdown : Int
  measurementCycle : Nat
deriving DecidableEq, Repr

/-- The countdown length START_DELAY. -/
def START_DELAY : Int := 5

/-- State after page load: SSEHandler virgin state (channel -1, phase
null), 31 plain jars, start enabled by the initial applyPhase(IDLE), no
countdown, cycle counter absent hence 0. -/
def initEngineState : EngineState :=
  { currentChannel := -1
    currentPhase := none
    jars := List.replicate 31 initJar
    btnStartDisabled := false
    btnAbortDisabled := true
    isMeasurementRunning := false
    countdownTimerSet := false
    countdownIntervalLive := false
    countdown := START_DELAY
    measurementCycle := 0 }

/-- Embedding of applyPhase: cancel a pending countdown unless the phase
is IDLE, then derive the two button disabled flags; start is enabled
exactly on IDLE and ABORTED and abort is the opposite. -/
def applyPhase (phase : String) (st : EngineState) : EngineState :=
  let st1 :=
    if st.countdownTimerSet ∧ phase ≠ PHASE_IDLE then
      { st with countdownTimerSet := false, countdownIntervalLive := false,
                countdown := START_DELAY }
    else st
  let startEnabled : Bool := phase == PHASE_IDLE || phase == PHASE_ABORTED
  { st1 with btnStartDisabled := !startEnabled, btnAbortDisabled := startEnabled }

/-- A run summary toast as produced by showMeasurementSummaryToast:
title, completed steps, total steps and severity. -/
structure Toast where
  title : String
  completed : Int
  total : Int
  kind : String
deriving DecidableEq, Repr

/-- The observable side effects of one SSEHandler call.  Fields are none
or false or empty when the corresponding DOM write did not happen.  The
latestStores field carries the unconditional window.latest* assignments
(elapsed, tt, next channel, current channel) and circles the three
clamped circle percentages (repeat, cycle, overall); both are none when
the event was dropped by the catch handler. -/
structure Effects where
  didResetJars : Bool
  appliedPhase : Option String
  recoloredJar : Option (Int × String)
  setRunning : Option Bool
  updatedGridLock : Bool
  updatedETTT : Bool
  notifications : List Toast
  channelInfo : Option (Int × String)
  latestStores : Option (Rat × Rat × Int × Int)
  repeatCircle : Option Rat
  cycleCircle : Option Rat
  overallCircle : Option Rat
deriving DecidableEq, Repr

/-- The effects of a dropped event: nothing at all. -/
def noEffects : Effects :=
  { didResetJars := false
    appliedPhase := none
    recoloredJar := none
    setRunning := none
    updatedGridLock := false
    updatedETTT := false
    notifications := []
    channelInfo := none
    latestStores := none
    repeatCircle := none
    cycleCircle := none
    overallCircle := none }

/-- Embedding of SSEHandler.  The argument none models a payload whose
field accesses throw (for example a null payload): the try/catch logs
and drops it, leaving the stored state untouched.  For a readable
payload the fields are extracted with their ?? defaults, the change
flags are computed against the stored last-seen pair, and the gated
blocks run exactly as in the source; the returned Effects record the
DOM writes of this call. -/
def reconcile (payload : Option SSEEvent) (st : EngineState) : EngineState × Effects :=
  match payload with
  | none => (st, noEffects)
  | some d =>
    let ch := extractChannel d
    let rep : Int := (d.repeat_index.orElse fun _ => d.repeatField).getD 0
    let pct : Rat := d.percent.getD 0
    let overallPct : Rat := d.overall_percent.getD 0
    let newPhase := extractPhase d
    let stepIndex : Int := d.step_index.getD 0
    let repeatTotal : Int := d.repeat_total.getD 0
    let totalSteps : Int := d.total_steps.getD 0
    let latestElapsed : Rat := d.elapsed_seconds.getD 0
    let latestTt : Rat := d.tt_seconds.getD 0
    let latestNext : Int := d.next_channel.getD 0
    let stA :=
      if st.currentChannel ≠ ch then
        if st.currentPhase ≠ some newPhase ∧ ch = 0 then
          { st with currentChannel := ch, jars := resetJarStates st.jars }
        else { st with currentChannel := ch }
      else st
    let stB :=
      if st.currentPhase ≠ some newPhase then
        let s1 := applyPhase newPhase stA
        { s1 with jars := updateJarColors ch newPhase s1.jars,
                  isMeasurementRunning := isActivePhase newPhase,
                  currentPhase := some newPhase }
      else stA
    let notifs : List Toast :=
      if st.currentPhase ≠ some newPhase then
        if newPhase = PHASE_ABORTED then
          [⟨TITLE_ABORTED, stepIndex, totalSteps, KIND_DANGER⟩]
        else if st.currentPhase = some PHASE_SWITCHING ∧ newPhase = PHASE_IDLE then
          [⟨TITLE_COMPLETE, totalSteps, totalSteps, KIND_SUCCESS⟩]
        else []
      else []
    let effects : Effects :=
      { didResetJars :=
          decide (st.currentChannel ≠ ch) && decide (st.currentPhase ≠ some newPhase)
            && decide (ch = 0)
        appliedPhase := if st.currentPhase ≠ some newPhase then some newPhase else none
        recoloredJar := if st.currentPhase ≠ some newPhase then some (ch, newPhase) else none
        setRunning :=
          if st.currentPhase ≠ some newPhase then some (isActivePhase newPhase) else none
        updatedGridLock := decide (st.currentPhase ≠ some newPhase)
        updatedETTT := decide (st.currentPhase ≠ some newPhase) && isActivePhase newPhase
        notifications := notifs
        channelInfo :=
          if st.currentPhase ≠ some newPhase ∨ st.currentChannel ≠ ch then
            some (ch, newPhase)
          else none
        latestStores := some (latestElapsed, latestTt, latestNext, ch)
        repeatCircle := some (updateRepeatInfoPct (JSNum.num rep) (JSNum.num repeatTotal))
        cycleCircle := some (updateCycleProgressPct (JSNum.num pct))
        overallCircle := some (updateCircularProgressPct (JSNum.num overallPct)) }
    (stB, effects)

/-!  Start controller and user interactions. -/

/-- The request issued by startMeasurement. -/
def START_REQUEST : String := "start-request"

/-- Embedding of startMeasurement: bump the measurementCycle counter in
sessionStorage, disable the start button and issue the asynchronous
start request.  The response is not awaited here. -/
def startMeasurementStep (st : EngineState) : EngineState × List String :=
  ({ st with measurementCycle := st.measurementCycle + 1, btnStartDisabled := true },
   [START_REQUEST])

/-- Embedding of the start request response handler: the .then branch of
startMeasurement only logs on a non-ok response and changes no state. -/
def applyStartResponse (st : EngineState) (_ok : Bool) : EngineState := st

/-- Embedding of the btnStart click handler: a click while a measurement
runs is ignored; the countdown variable is reset to START_DELAY; a click
while the timer exists cancels it; otherwise the interval is created. -/
def clickStart (st : EngineState) : EngineState × List String :=
  if st.isMeasurementRunning then (st, [])
  else
    let st1 := { st with countdown := START_DELAY }
    if st1.countdownTimerSet then
      ({ st1 with countdownTimerSet := false, countdownIntervalLive := false }, [])
    else
      ({ st1 with countdownTimerSet := true, countdownIntervalLive := true }, [])

/-- Embedding of one countdown interval tick: nothing happens if the
interval was cleared; a running measurement clears the interval (the
timer variable keeps its stale id, as in the source); otherwise the
countdown decrements and on reaching zero the interval is cleared and
startMeasurement runs. -/
def tickStart (st : EngineState) : EngineState × List String :=
  if ¬ st.countdownIntervalLive then (st, [])
  else if st.isMeasurementRunning then
    ({ st with countdownIntervalLive := false }, [])
  else
    let st1 := { st with countdown := st.countdown - 1 }
    if st1.countdown ≤ 0 then
      startMeasurementStep
        { st1 with countdownIntervalLive := false, countdownTimerSet := false }
    else (st1, [])

/-- Actions driving the start controller. -/
inductive CtrlAction where
  | click : CtrlAction
  | tick : CtrlAction
deriving DecidableEq, Repr

/-- One controller step. -/
def ctrlStep (st : EngineState) : CtrlAction → EngineState × List String
  | CtrlAction.click => clickStart st
  | CtrlAction.tick => tickStart st

/-- Run a list of controller actions, collecting the issued requests. -/
def runCtrl : EngineState → List CtrlAction → EngineState × List String
  | st, [] => (st, [])
  | st, a :: rest =>
      let r := ctrlStep st a
      let rec2 := runCtrl r.1 rest
      (rec2.1, r.2 ++ rec2.2)

/-- A list of n countdown ticks. -/
def ticks (n : Nat) : List CtrlAction :=
  List.replicate n CtrlAction.tick

/-- Embedding of the jar click handler: ignored while a measurement
runs; otherwise toggles the active class of jar i (0-based index) and
removes sampled and sampling; the paused class is not removed. -/
def clickJar (i : Nat) (st : EngineState) : EngineState :=
  if st.isMeasurementRunning then st
  else
    { st with jars :=
        (st.jars.enum).map fun p =>
          if p.1 = i then
            { p.2 with active := ¬ p.2.active, sampled := false, sampling := false }
          else p.2 }

/-- Embedding of the btnNone / btnAll handlers: setAllJars has no
running-measurement guard in the source. -/
def clickSetAllJars (b : Bool) (st : EngineState) : EngineState :=
  { st with jars := setAllJars b st.jars }

/-- Run a list of SSE events through reconcile, collecting every run
summary toast in emission order. -/
def runSSE : EngineState → List SSEEvent → EngineState × List Toast
  | st, [] => (st, [])
  | st, d :: rest =>
      let r := reconcile (some d) st
      let rec2 := runSSE r.1 rest
      (rec2.1, r.2.notifications ++ rec2.2)

/-!  Alert deduplication (showAlert of home_tab_core.js). -/

/-- Embedding of the dismissal key of showAlert: the measurementCycle
string, the type and the message joined with colons
(currentCycle : type : message). -/
def mkDismissKey (cycle kind message : String) : String :=
  cycle ++ ":" ++ kind ++ ":" ++ message

/-- The per-session dismissed map, most recent entries first. -/
def lookupStore (store : List (String × Bool)) (k : String) : Bool :=
  match store.find? (fun p => p.1 == k) with
  | some p => p.2
  | none => false

/-- Embedding of the suppression decision of showAlert: the alert is
presented unless its dismissal key is marked in the store. -/
def showAlertPresents (store : List (String × Bool)) (cycle kind message : String) : Bool :=
  ! lookupStore store (mkDismissKey cycle kind message)

/-- Embedding of the click-to-dismiss handler: the dismissal key is
marked true in the per-session store. -/
def dismissAlert (store : List (String × Bool)) (cycle kind message : String) :
    List (String × Bool) :=
  (mkDismissKey cycle kind message, true) :: store


/-!  Spec-mirror definition and concrete inputs used by the theorems. -/

/-- Modelled from the spec: the quartile range of a percent among the
four fixed ranges 0 to 25, 26 to 50, 51 to 75 and 76 to 100, reading
each label as the left-open right-closed interval it bounds. -/
def specQuartileOf (p : Rat) : String :=
  if p ≤ 25 then BUCKET_Q1
  else if 25 < p ∧ p ≤ 50 then BUCKET_Q2
  else if 50 < p ∧ p ≤ 75 then BUCKET_Q3
  else BUCKET_Q4

/-- Event carrying only a phase, a channel and a step total. -/
def mkEv (phase : String) (ch : Int) (ts : Int) : SSEEvent :=
  { emptyEvent with
      phase := some phase, current_channel := some ch, total_steps := some ts }

/-- Initial state of scenario A: jars 1 and 2 selected, 29 unselected. -/
def scenarioInit : EngineState :=
  { initEngineState with jars := activeJar :: activeJar :: List.replicate 29 initJar }

/-- The event sequence of scenario A: IDLE, MEASURING on channel 0,
MEASURING on channel 1, SWITCHING on channel 1, IDLE, all with
total_steps 2. -/
def scenarioEvents : List SSEEvent :=
  [mkEv PHASE_IDLE 0 2, mkEv PHASE_MEASURING 0 2, mkEv PHASE_MEASURING 1 2,
   mkEv PHASE_SWITCHING 1 2, mkEv PHASE_IDLE 1 2]

/-- A phase string that is none of the six recognized variants. -/
def PHASE_UNKNOWN : String := "UNKNOWN"

/-- An event whose phase field holds the unrecognized string. -/
def bogusEvent : SSEEvent := { emptyEvent with phase := some PHASE_UNKNOWN }

/-- A MEASURING event on channel 0 with total_steps 2. -/
def measEvent : SSEEvent := mkEv PHASE_MEASURING 0 2

/-- An ABORTED event on channel 0 with step_index 1 of total_steps 2. -/
def abortEvent : SSEEvent :=
  { emptyEvent with
      phase := some PHASE_ABORTED, current_channel := some 0,
      step_index := some 1, total_steps := some 2 }

/-- A state whose stored pair matches measEvent (channel 0, MEASURING). -/
def dupWitnessState : EngineState :=
  { initEngineState with currentChannel := 0, currentPhase := some PHASE_MEASURING }

/-- A state that last saw the MEASURING phase. -/
def measuringState : EngineState :=
  { initEngineState with currentPhase := some PHASE_MEASURING }

/-- The state reached by a MEASURING event on channel 0 followed by the
select-none button: the counterexample state of C6. -/
def c6CexState : EngineState :=
  clickSetAllJars false (reconcile (some measEvent) scenarioInit).1

/-- Selection invariant over a jar list: unselected jars carry neither
the sampling nor the paused marker. -/
def unselectedIdleInv (jars : List JarState) : Prop :=
  ∀ j ∈ jars, j.active = false → j.sampling = false ∧ j.paused = false

/-- Cycle string of run one in the C7 witness. -/
def CYCLE_ONE : String := "1"

/-- Cycle string of run two in the C7 witness. -/
def CYCLE_TWO : String := "2"

/-- Message body used in the C7 witness. -/
def MSG_DONE : String := "all done"

/-- The effects of a duplicate event: only the unconditional stores and
the three circle recomputations, everything else absent. -/
def dupEffects (d : SSEEvent) : Effects :=
  { noEffects with
      latestStores := some (d.elapsed_seconds.getD 0, d.tt_seconds.getD 0,
                            d.next_channel.getD 0, extractChannel d)
      repeatCircle := some (updateRepeatInfoPct
        (JSNum.num (((d.repeat_index.orElse fun _ => d.repeatField).getD 0 : Int)))
        (JSNum.num ((d.repeat_total.getD 0 : Int))))
      cycleCircle := some (updateCycleProgressPct (JSNum.num (d.percent.getD 0)))
      overallCircle := some (updateCircularProgressPct
        (JSNum.num (d.overall_percent.getD 0))) }

/-!  Projection lemmas about applyPhase and reconcile. -/

/-- applyPhase does not touch the jar grid. -/
theorem applyPhase_jars (p : String) (st : EngineState) : (applyPhase p st).jars = st.jars := by
  unfold applyPhase; split <;> rfl

/-- applyPhase does not touch the stored phase. -/
theorem applyPhase_currentPhase (p : String) (st : EngineState) :
    (applyPhase p st).currentPhase = st.currentPhase := by
  unfold applyPhase; split <;> rfl

/-- applyPhase does not touch the stored channel. -/
theorem applyPhase_currentChannel (p : String) (st : EngineState) :
    (applyPhase p st).currentChannel = st.currentChannel := by
  unfold applyPhase; split <;> rfl

/-- applyPhase does not touch the measurement cycle counter. -/
theorem applyPhase_measurementCycle (p : String) (st : EngineState) :
    (applyPhase p st).measurementCycle = st.measurementCycle := by
  unfold applyPhase; split <;> rfl

/-- After any readable event the stored phase equals the extracted phase
of that event. -/
theorem reconcile_currentPhase (d : SSEEvent) (st : EngineState) :
    (reconcile (some d) st).1.currentPhase = some (extractPhase d) := by
  unfold reconcile
  by_cases hp : st.currentPhase = some (extractPhase d)
  · by_cases hc : st.currentChannel = extractChannel d
    · simp [hp, hc]
    · simp [hp, hc]
  · by_cases hc : st.currentChannel = extractChannel d
    · simp [hp, hc, applyPhase_currentPhase]
    · by_cases h0 : extractChannel d = 0
      · have hc0 : st.currentChannel ≠ 0 := h0 ▸ hc
        simp [hp, hc, h0, hc0, applyPhase_currentPhase]
      · simp [hp, hc, h0, applyPhase_currentPhase]

/-- After any readable event the stored channel equals the extracted
channel of that event. -/
theorem reconcile_currentChannel (d : SSEEvent) (st : EngineState) :
    (reconcile (some d) st).1.currentChannel = extractChannel d := by
  unfold reconcile
  by_cases hp : st.currentPhase = some (extractPhase d)
  · by_cases hc : st.currentChannel = extractChannel d
    · simp [hp, hc]
    · simp [hp, hc]
  · by_cases hc : st.currentChannel = extractChannel d
    · simp [hp, hc, applyPhase_currentChannel]
    · by_cases h0 : extractChannel d = 0
      · have hc0 : st.currentChannel ≠ 0 := h0 ▸ hc
        simp [hp, hc, h0, hc0, applyPhase_currentChannel]
      · simp [hp, hc, h0, applyPhase_currentChannel]

/-- reconcile never touches the measurement cycle counter. -/
theorem reconcile_measurementCycle (p : Option SSEEvent) (st : EngineState) :
    (reconcile p st).1.measurementCycle = st.measurementCycle := by
  cases p with
  | none => rfl
  | some d =>
    unfold reconcile
    by_cases hp : st.currentPhase = some (extractPhase d)
    · by_cases hc : st.currentChannel = extractChannel d
      · simp [hp, hc]
      · simp [hp, hc]
    · by_cases hc : st.currentChannel = extractChannel d
      · simp [hp, hc, applyPhase_measurementCycle]
      · by_cases h0 : extractChannel d = 0
        · have hc0 : st.currentChannel ≠ 0 := h0 ▸ hc
          simp [hp, hc, h0, hc0, applyPhase_measurementCycle]
        · simp [hp, hc, h0, applyPhase_measurementCycle]

/-- The notifications of a reconcile call, extracted as a closed
formula: empty unless the phase changed, and then the abort or the
completion summary exactly on the two designated transitions. -/
theorem reconcile_notifications (d : SSEEvent) (st : EngineState) :
    (reconcile (some d) st).2.notifications =
      (if st.currentPhase ≠ some (extractPhase d) then
        (if extractPhase d = PHASE_ABORTED then
          [⟨TITLE_ABORTED, d.step_index.getD 0, d.total_steps.getD 0, KIND_DANGER⟩]
        else if st.currentPhase = some PHASE_SWITCHING ∧ extractPhase d = PHASE_IDLE then
          [⟨TITLE_COMPLETE, d.total_steps.getD 0, d.total_steps.getD 0, KIND_SUCCESS⟩]
        else [])
      else []) := rfl

/-- C1: on every reconcile call whose extracted phase differs from the
stored phase, a run summary toast is emitted if and only if the new
phase is ABORTED or the stored phase was SWITCHING and the new phase is
IDLE; the abort summary carries the step index and total steps of the
event, the completion summary carries the total steps as both counts;
no other transition emits a summary. -/
theorem c1_summary_toast_iff (d : SSEEvent) (st : EngineState)
    (hchg : st.currentPhase ≠ some (extractPhase d)) :
    ((reconcile (some d) st).2.notifications ≠ [] ↔
      (extractPhase d = PHASE_ABORTED
        ∨ (st.currentPhase = some PHASE_SWITCHING ∧ extractPhase d = PHASE_IDLE)))
    ∧ (extractPhase d = PHASE_ABORTED →
        (reconcile (some d) st).2.notifications
          = [⟨TITLE_ABORTED, d.step_index.getD 0, d.total_steps.getD 0, KIND_DANGER⟩])
    ∧ (st.currentPhase = some PHASE_SWITCHING → extractPhase d = PHASE_IDLE →
        (reconcile (some d) st).2.notifications
          = [⟨TITLE_COMPLETE, d.total_steps.getD 0, d.total_steps.getD 0, KIND_SUCCESS⟩]) := by
  rw [reconcile_notifications, if_pos hchg]
  by_cases hA : extractPhase d = PHASE_ABORTED
  · rw [if_pos hA]
    refine ⟨by simp [hA], fun _ => rfl, ?_⟩
    intro hSw hI
    rw [hA] at hI
    exact absurd hI (by decide)
  · rw [if_neg hA]
    by_cases hS : st.currentPhase = some PHASE_SWITCHING ∧ extractPhase d = PHASE_IDLE
    · rw [if_pos hS]
      refine ⟨by simp [hS], fun hAbs => absurd hAbs hA, fun _ _ => rfl⟩
    · rw [if_neg hS]
      refine ⟨by simp [hA, hS], fun hAbs => absurd hAbs hA, ?_⟩
      intro hSw hI
      exact absurd ⟨hSw, hI⟩ hS

/-- Witness for C1: an ABORTED event with step index 1 of 2 arriving in
the MEASURING phase produces exactly the abort summary toast. -/
theorem c1_summary_toast_iff_witness :
    measuringState.currentPhase ≠ some (extractPhase abortEvent)
    ∧ (reconcile (some abortEvent) measuringState).2.notifications
        = [⟨TITLE_ABORTED, abortEvent.step_index.getD 0, abortEvent.total_steps.getD 0,
            KIND_DANGER⟩] :=
  ⟨by decide,
   (c1_summary_toast_iff abortEvent measuringState (by decide)).2.1 (by decide)⟩

/-- C2: an event whose extracted channel and phase both equal the stored
last-seen values changes no stored state and emits only the
unconditional stores and the three circle recomputations; consequently
a second consecutive delivery of any event leaves the state of the
first delivery unchanged and emits no notification. -/
theorem c2_duplicate_event_noop (d : SSEEvent) (st : EngineState) :
    (extractChannel d = st.currentChannel → some (extractPhase d) = st.currentPhase →
      reconcile (some d) st = (st, dupEffects d))
    ∧ (reconcile (some d) (reconcile (some d) st).1).1 = (reconcile (some d) st).1
    ∧ (reconcile (some d) (reconcile (some d) st).1).2 = dupEffects d := by
  have main : ∀ s : EngineState, extractChannel d = s.currentChannel →
      some (extractPhase d) = s.currentPhase →
      reconcile (some d) s = (s, dupEffects d) := by
    intro s h1 h2
    unfold reconcile
    simp [h1.symm, h2.symm, noEffects, dupEffects]
  have hdup := main (reconcile (some d) st).1
    (reconcile_currentChannel d st).symm (reconcile_currentPhase d st).symm
  exact ⟨main st, by rw [hdup], by rw [hdup]⟩

/-- Witness for C2: a MEASURING event on channel 0 delivered to a state
already storing channel 0 and MEASURING is a no-op beyond the
unconditional projector effects. -/
theorem c2_duplicate_event_noop_witness :
    extractChannel measEvent = dupWitnessState.currentChannel
    ∧ some (extractPhase measEvent) = dupWitnessState.currentPhase
    ∧ reconcile (some measEvent) dupWitnessState = (dupWitnessState, dupEffects measEvent) :=
  ⟨by decide, by decide,
   (c2_duplicate_event_noop measEvent dupWitnessState).1 (by decide) (by decide)⟩

/-!  The clamp of updateProgressCircle and the C8 projector claims. -/

/-- On a finite percent the clamp computes max 0 (min 100 percent). -/
theorem updateProgressCirclePct_num (q : Rat) :
    updateProgressCirclePct (JSNum.num q) = max 0 (min 100 q) := by
  unfold updateProgressCirclePct jsOrZero
  by_cases h : q = 0
  · subst h; simp [jsMin, jsMax]
  · simp [h, jsMin, jsMax]

/-- The bucket computation of updateProgressCircle agrees with the
quartile ranges of the specification. -/
theorem colorRange_eq_specQuartileOf (p : Rat) : colorRange p = specQuartileOf p := by
  unfold colorRange specQuartileOf
  by_cases h1 : p ≤ 25
  · simp [h1]
  · by_cases h2 : p ≤ 50
    · simp [h1, h2, lt_of_not_ge h1]
    · by_cases h3 : p ≤ 75
      · simp [h1, h2, h3, lt_of_not_ge h2]
      · simp [h1, h2, h3]

/-- C8 (amended): for every (value, total) pair fed to the repeat
projector, when total is positive the reported percent is
clamp(0, 100, value times 100 over total); when total is zero the
percent is 0 for value 0 but 100 for positive value, because the
JavaScript division yields Infinity which the clamp caps at 100 (never
an error); and the bucket tag always is the quartile range of the
reported percent. -/
theorem c8_projector_clamp (v t : Rat) :
    (0 < t →
      updateRepeatInfoPct (JSNum.num v) (JSNum.num t) = max 0 (min 100 (v * 100 / t)))
    ∧ (t = 0 → v = 0 → updateRepeatInfoPct (JSNum.num v) (JSNum.num t) = 0)
    ∧ (t = 0 → 0 < v → updateRepeatInfoPct (JSNum.num v) (JSNum.num t) = 100)
    ∧ colorRange (updateRepeatInfoPct (JSNum.num v) (JSNum.num t))
        = specQuartileOf (updateRepeatInfoPct (JSNum.num v) (JSNum.num t)) := by
  refine ⟨?_, ?_, ?_, colorRange_eq_specQuartileOf _⟩
  · intro ht
    have ht0 : t ≠ 0 := ne_of_gt ht
    unfold updateRepeatInfoPct
    simp only [jsOrZero, if_neg ht0, jsDiv, jsMul]
    rw [updateProgressCirclePct_num, div_mul_eq_mul_div]
  · intro ht hv
    subst ht; subst hv; rfl
  · intro ht hv
    subst ht
    have hv0 : v ≠ 0 := ne_of_gt hv
    unfold updateRepeatInfoPct
    simp [jsOrZero, jsDiv, jsMul, hv0, hv, not_lt.mpr (le_of_lt hv), jsMin, jsMax,
          updateProgressCirclePct]

/-- Witness for C8 at value 50 total 200 and at the zero-total cases. -/
theorem c8_projector_clamp_witness :
    (0 < (200 : Rat)
      ∧ updateRepeatInfoPct (JSNum.num 50) (JSNum.num 200)
          = max 0 (min 100 ((50 : Rat) * 100 / 200)))
    ∧ ((0 : Rat) = 0 ∧ (0 : Rat) = 0
      ∧ updateRepeatInfoPct (JSNum.num 0) (JSNum.num 0) = 0)
    ∧ ((0 : Rat) = 0 ∧ 0 < (1 : Rat)
      ∧ updateRepeatInfoPct (JSNum.num 1) (JSNum.num 0) = 100) :=
  ⟨⟨by norm_num, (c8_projector_clamp 50 200).1 (by norm_num)⟩,
   ⟨rfl, rfl, (c8_projector_clamp 0 0).2.1 rfl rfl⟩,
   ⟨rfl, by norm_num, (c8_projector_clamp 1 0).2.2.1 rfl (by norm_num)⟩⟩

/-- Counterexample to C8 as stated: with total 0 and value 1 the repeat
projector reports percent 100, not 0. -/
theorem c8_projector_zero_total_cex :
    updateRepeatInfoPct (JSNum.num 1) (JSNum.num 0) = 100 ∧ (100 : Rat) ≠ 0 :=
  ⟨rfl, by decide⟩

/-!  Dismissal keys (C7). -/

/-- Lists split at a distinguished separator absent from both prefixes
have equal prefixes and equal tails. -/
theorem colon_sep_inj : ∀ (a b t u : List Char), ':' ∉ a → ':' ∉ b →
    a ++ ':' :: t = b ++ ':' :: u → a = b ∧ t = u := by
  intro a
  induction a with
  | nil =>
    intro b t u _ hb h
    cases b with
    | nil => simpa using h
    | cons x xs =>
      simp at h
      exact absurd (h.1 ▸ List.mem_cons_self x xs) hb
  | cons x xs ih =>
    intro b t u ha hb h
    cases b with
    | nil =>
      simp at h
      exact absurd (h.1 ▸ List.mem_cons_self x xs) ha
    | cons y ys =>
      simp at h
      obtain ⟨hxy, h2⟩ := h
      obtain ⟨h3, h4⟩ := ih ys t u (fun hm => ha (List.mem_cons_of_mem x hm))
        (fun hm => hb (List.mem_cons_of_mem y hm)) h2
      exact ⟨by rw [hxy, h3], h4⟩

/-- The characters of a dismissal key: the cycle, a colon, the kind, a
colon, the message. -/
theorem mkDismissKey_data (c k m : String) :
    (mkDismissKey c k m).data = c.data ++ ':' :: (k.data ++ ':' :: m.data) := by
  simp [mkDismissKey, String.data_append]

/-- Two dismissal keys with the same kind and message but different
colon-free cycle strings are different. -/
theorem mkDismissKey_cycle_inj (c1 c2 k m : String)
    (h1 : ':' ∉ c1.data) (h2 : ':' ∉ c2.data)
    (h : mkDismissKey c1 k m = mkDismissKey c2 k m) : c1 = c2 := by
  have hd := congrArg String.data h
  rw [mkDismissKey_data, mkDismissKey_data] at hd
  exact String.ext (colon_sep_inj c1.data c2.data _ _ h1 h2 hd).1

/-- C7: the dedup key concatenates the run cycle, the kind and the
message with colons; a key marked acknowledged makes the call a no-op
and an unmarked key presents the alert; and a message dismissed under
one colon-free run cycle is presented again under any different
colon-free run cycle, because the run cycle is part of the key. -/
theorem c7_dedup_key (store : List (String × Bool)) (c1 c2 k m : String) :
    (mkDismissKey c1 k m = c1 ++ ":" ++ k ++ ":" ++ m)
    ∧ (lookupStore store (mkDismissKey c1 k m) = true →
        showAlertPresents store c1 k m = false)
    ∧ (lookupStore store (mkDismissKey c1 k m) = false →
        showAlertPresents store c1 k m = true)
    ∧ (':' ∉ c1.data → ':' ∉ c2.data → c1 ≠ c2 →
        lookupStore store (mkDismissKey c2 k m) = false →
        showAlertPresents (dismissAlert store c1 k m) c2 k m = true) := by
  refine ⟨rfl, ?_, ?_, ?_⟩
  · intro h; simp [showAlertPresents, h]
  · intro h; simp [showAlertPresents, h]
  · intro h1 h2 hne hlk
    have hkey : mkDismissKey c1 k m ≠ mkDismissKey c2 k m :=
      fun he => hne (mkDismissKey_cycle_inj c1 c2 k m h1 h2 he)
    simp only [showAlertPresents, dismissAlert, lookupStore, List.find?]
    have hb : (mkDismissKey c1 k m == mkDismissKey c2 k m) = false := by
      simpa using hkey
    simp only [hb]
    simp only [lookupStore] at hlk
    rw [hlk]
    rfl

/-- Witness for C7: the message dismissed in run cycle 1 is presented
again in run cycle 2 on an otherwise empty store. -/
theorem c7_dedup_key_witness :
    (lookupStore [] (mkDismissKey CYCLE_ONE KIND_SUCCESS MSG_DONE) = false
      ∧ showAlertPresents [] CYCLE_ONE KIND_SUCCESS MSG_DONE = true)
    ∧ (':' ∉ CYCLE_ONE.data ∧ ':' ∉ CYCLE_TWO.data ∧ CYCLE_ONE ≠ CYCLE_TWO
      ∧ lookupStore [] (mkDismissKey CYCLE_TWO KIND_SUCCESS MSG_DONE) = false
      ∧ showAlertPresents (dismissAlert [] CYCLE_ONE KIND_SUCCESS MSG_DONE)
          CYCLE_TWO KIND_SUCCESS MSG_DONE = true) :=
  ⟨⟨rfl, (c7_dedup_key [] CYCLE_ONE CYCLE_TWO KIND_SUCCESS MSG_DONE).2.2.1 rfl⟩,
   ⟨by decide, by decide, by decide, rfl,
    (c7_dedup_key [] CYCLE_ONE CYCLE_TWO KIND_SUCCESS MSG_DONE).2.2.2
      (by decide) (by decide) (by decide) rfl⟩⟩

/-- C3 (amended): the stored phase after any readable event is exactly
the extracted phase: the IDLE fallback applies only to an absent phase
field, and a present phase string, recognized or not, is stored
verbatim. -/
theorem c3_phase_stored_verbatim (d : SSEEvent) (st : EngineState) :
    (reconcile (some d) st).1.currentPhase = some (extractPhase d)
    ∧ (d.phase = none → extractPhase d = PHASE_IDLE)
    ∧ (∀ p, d.phase = some p → extractPhase d = p) :=
  ⟨reconcile_currentPhase d st,
   fun h => by simp [extractPhase, h],
   fun p h => by simp [extractPhase, h]⟩

/-- Witness for C3: the unrecognized phase string is stored verbatim
and the absent phase defaults to IDLE. -/
theorem c3_phase_stored_verbatim_witness :
    ((reconcile (some bogusEvent) initEngineState).1.currentPhase
        = some (extractPhase bogusEvent))
    ∧ (bogusEvent.phase = some PHASE_UNKNOWN ∧ extractPhase bogusEvent = PHASE_UNKNOWN)
    ∧ (emptyEvent.phase = none ∧ extractPhase emptyEvent = PHASE_IDLE) :=
  ⟨(c3_phase_stored_verbatim bogusEvent initEngineState).1,
   ⟨rfl, (c3_phase_stored_verbatim bogusEvent initEngineState).2.2 PHASE_UNKNOWN rfl⟩,
   ⟨rfl, (c3_phase_stored_verbatim emptyEvent initEngineState).2.1 rfl⟩⟩

/-- Counterexample to C3 as stated: an event carrying the phase string
UNKNOWN leaves the engine storing that unrecognized string, not IDLE. -/
theorem c3_unrecognized_phase_cex :
    (reconcile (some bogusEvent) initEngineState).1.currentPhase = some PHASE_UNKNOWN
    ∧ PHASE_UNKNOWN ∉ recognizedPhases := by
  refine ⟨rfl, by decide⟩

/-- C4 (amended): a payload whose field accesses throw is dropped with
no state change and no effect; an absent percent field yields cycle
circle percent 0; an absent phase field defaults to IDLE (not to the
previous phase); an absent channel field defaults to 0. -/
theorem c4_defaults_no_crash (st : EngineState) (d : SSEEvent) :
    reconcile none st = (st, noEffects)
    ∧ (d.percent = none → (reconcile (some d) st).2.cycleCircle = some 0)
    ∧ (d.phase = none → (reconcile (some d) st).1.currentPhase = some PHASE_IDLE)
    ∧ (d.current_channel = none → (reconcile (some d) st).1.currentChannel = 0) := by
  refine ⟨rfl, ?_, ?_, ?_⟩
  · intro h
    have hc : (reconcile (some d) st).2.cycleCircle
        = some (updateCycleProgressPct (JSNum.num (d.percent.getD 0))) := rfl
    rw [hc, h]
    simp [updateCycleProgressPct, updateProgressCirclePct_num]
  · intro h
    rw [reconcile_currentPhase]
    simp [extractPhase, h]
  · intro h
    rw [reconcile_currentChannel]
    simp [extractChannel, h]

/-- Witness for C4: the empty event is processed without failure, its
cycle circle percent is 0 and its stored phase and channel take the
defaults. -/
theorem c4_defaults_no_crash_witness :
    reconcile none initEngineState = (initEngineState, noEffects)
    ∧ (emptyEvent.percent = none
      ∧ (reconcile (some emptyEvent) initEngineState).2.cycleCircle = some 0)
    ∧ (emptyEvent.phase = none
      ∧ (reconcile (some emptyEvent) initEngineState).1.currentPhase = some PHASE_IDLE)
    ∧ (emptyEvent.current_channel = none
      ∧ (reconcile (some emptyEvent) initEngineState).1.currentChannel = 0) :=
  ⟨(c4_defaults_no_crash initEngineState emptyEvent).1,
   ⟨rfl, (c4_defaults_no_crash initEngineState emptyEvent).2.1 rfl⟩,
   ⟨rfl, (c4_defaults_no_crash initEngineState emptyEvent).2.2.1 rfl⟩,
   ⟨rfl, (c4_defaults_no_crash initEngineState emptyEvent).2.2.2 rfl⟩⟩

/-- Counterexample to C4 as stated: an event with the phase field
absent arriving in the MEASURING phase is defaulted to IDLE, not to the
previous phase, and therefore registers a phase change. -/
theorem c4_phase_default_cex :
    emptyEvent.phase = none
    ∧ (reconcile (some emptyEvent) measuringState).1.currentPhase = some PHASE_IDLE
    ∧ measuringState.currentPhase = some PHASE_MEASURING
    ∧ some PHASE_IDLE ≠ some PHASE_MEASURING :=
  ⟨rfl, rfl, rfl, by decide⟩

/-- C5 (amended): on scenario A (phases IDLE, MEASURING on channel 0,
MEASURING on channel 1, SWITCHING on channel 1, IDLE, with jars 1 and 2
selected and total steps 2) the run emits exactly the completion
summary with 2 of 2 steps, channel 2 ends in the SAMPLED visual state
and channels 3 and above are untouched; channel 1 however ends in the
SAMPLING visual state, because the channel switch away from it happened
with no phase change and no recolor ever cleared its marker. -/
theorem c5_scenario_a_final_state :
    (runSSE scenarioInit scenarioEvents).2 = [⟨TITLE_COMPLETE, 2, 2, KIND_SUCCESS⟩]
    ∧ jarVisual ((runSSE scenarioInit scenarioEvents).1.jars.getD 0 initJar) = VISUAL_SAMPLING
    ∧ jarVisual ((runSSE scenarioInit scenarioEvents).1.jars.getD 1 initJar) = VISUAL_SAMPLED
    ∧ (runSSE scenarioInit scenarioEvents).1.jars.drop 2 = List.replicate 29 initJar :=
  ⟨rfl, rfl, rfl, rfl⟩

/-- Counterexample to C5 as stated: in scenario A the final visual
state of channel 1 is SAMPLING, not SAMPLED. -/
theorem c5_scenario_a_jar1_cex :
    jarVisual ((runSSE scenarioInit scenarioEvents).1.jars.getD 0 initJar) = VISUAL_SAMPLING
    ∧ VISUAL_SAMPLING ≠ VISUAL_SAMPLED :=
  ⟨rfl, by decide⟩

/-!  The C6 selection invariant. -/

/-- recolorJar never changes the selection flag. -/
theorem recolorJar_active (p : String) (j : JarState) :
    (recolorJar p j).active = j.active := by
  unfold recolorJar
  split_ifs <;> rfl

/-- recolorJar leaves an unselected jar untouched (the early return of
updateJarColors). -/
theorem recolorJar_unselected (p : String) (j : JarState) (h : j.active = false) :
    recolorJar p j = j := by
  unfold recolorJar
  simp [h]

/-- resetJarStates preserves the selection invariant. -/
theorem resetJarStates_inv (jars : List JarState) (h : unselectedIdleInv jars) :
    unselectedIdleInv (resetJarStates jars) := by
  intro j' hj' hact
  simp only [resetJarStates, List.mem_map] at hj'
  obtain ⟨j, hj, rfl⟩ := hj'
  exact ⟨rfl, (h j hj hact).2⟩

/-- The indexed recolor walk preserves the selection invariant. -/
theorem updateJarColorsAux_inv (ch : Int) (p : String) :
    ∀ (i : Nat) (jars : List JarState), unselectedIdleInv jars →
      unselectedIdleInv (updateJarColorsAux ch p i jars) := by
  intro i jars
  induction jars generalizing i with
  | nil => intro h; exact h
  | cons j rest ih =>
    intro h j' hj' hact
    simp only [updateJarColorsAux] at hj'
    rcases List.mem_cons.mp hj' with h1 | h2
    · subst h1
      by_cases hi : (i : Int) = ch
      · rw [if_pos hi] at hact ⊢
        rw [recolorJar_active] at hact
        rw [recolorJar_unselected p j hact]
        exact h j (List.mem_cons_self j rest) hact
      · rw [if_neg hi] at hact ⊢
        exact h j (List.mem_cons_self j rest) hact
    · exact ih (i + 1)
        (fun jj hjj hh => h jj (List.mem_cons_of_mem j hjj) hh) j' h2 hact

/-- updateJarColors preserves the selection invariant. -/
theorem updateJarColors_inv (ch : Int) (p : String) (jars : List JarState)
    (h : unselectedIdleInv jars) : unselectedIdleInv (updateJarColors ch p jars) :=
  updateJarColorsAux_inv ch p 0 jars h

/-- C6 (amended): along event-only histories the invariant holds: if no
unselected jar carries the sampling or paused marker before an event,
none does after it, because updateJarColors skips unselected jars and
resetJarStates only clears markers; the invariant is however not
maintained by the bulk selection interactions, which deselect jars
without clearing their markers (see the counterexample). -/
theorem c6_unselected_never_marked (p : Option SSEEvent) (st : EngineState)
    (h : unselectedIdleInv st.jars) : unselectedIdleInv (reconcile p st).1.jars := by
  cases p with
  | none => exact h
  | some d =>
    unfold reconcile
    by_cases hp : st.currentPhase = some (extractPhase d)
    · by_cases hc : st.currentChannel = extractChannel d
      · simp only [hp, hc]
        simp [h]
      · simp only [hp, hc]
        simp [hp, hc, h]
    · by_cases hc : st.currentChannel = extractChannel d
      · simp [hp, hc, applyPhase_jars]
        exact updateJarColors_inv _ _ _ h
      · by_cases h0 : extractChannel d = 0
        · have hc0 : st.currentChannel ≠ 0 := h0 ▸ hc
          simp [hp, hc, h0, hc0, applyPhase_jars]
          exact updateJarColors_inv _ _ _ (resetJarStates_inv _ h)
        · simp [hp, hc, h0, applyPhase_jars]
          exact updateJarColors_inv _ _ _ h

/-- Witness for C6: the scenario A start state satisfies the invariant
and still satisfies it after the MEASURING event on channel 0. -/
theorem c6_unselected_never_marked_witness :
    unselectedIdleInv scenarioInit.jars
    ∧ unselectedIdleInv (reconcile (some measEvent) scenarioInit).1.jars :=
  ⟨by unfold unselectedIdleInv; decide,
   c6_unselected_never_marked (some measEvent) scenarioInit
     (by unfold unselectedIdleInv; decide)⟩

/-- Counterexample to C6 as stated: after a MEASURING event on channel
0 the select-none button deselects jar 1 without clearing its sampling
marker, so an unselected channel carries the SAMPLING visual state. -/
theorem c6_bulk_deselect_cex :
    (c6CexState.jars.getD 0 initJar).active = false
    ∧ jarVisual (c6CexState.jars.getD 0 initJar) = VISUAL_SAMPLING
    ∧ ¬ unselectedIdleInv c6CexState.jars :=
  ⟨rfl, rfl, by unfold unselectedIdleInv; decide⟩

/-!  The start countdown (C9) and the cycle counter (C10). -/

/-- runCtrl unfolds one action. -/
theorem runCtrl_cons (st : EngineState) (a : CtrlAction) (l : List CtrlAction) :
    runCtrl st (a :: l)
      = ((runCtrl (ctrlStep st a).1 l).1,
         (ctrlStep st a).2 ++ (runCtrl (ctrlStep st a).1 l).2) := rfl

/-- ticks unfolds one tick. -/
theorem ticks_succ (k : Nat) : ticks (k + 1) = CtrlAction.tick :: ticks k := rfl

/-- A tick with time left only decrements the countdown. -/
theorem tickStart_step (st : EngineState) (h1 : st.countdownIntervalLive = true)
    (h3 : st.isMeasurementRunning = false) (hgt : ¬ (st.countdown - 1 ≤ 0)) :
    tickStart st = ({ st with countdown := st.countdown - 1 }, []) := by
  unfold tickStart
  rw [h1, h3]
  simp [hgt]

/-- A tick that exhausts the countdown clears the timer and issues the
start request while bumping the cycle counter. -/
theorem tickStart_fire (st : EngineState) (h1 : st.countdownIntervalLive = true)
    (h3 : st.isMeasurementRunning = false) (hz : st.countdown - 1 ≤ 0) :
    tickStart st
      = ({ st with countdown := st.countdown - 1, countdownIntervalLive := false,
                   countdownTimerSet := false, btnStartDisabled := true,
                   measurementCycle := st.measurementCycle + 1 }, [START_REQUEST]) := by
  unfold tickStart startMeasurementStep
  rw [h1, h3]
  simp [hz]

/-- Ticks on a cleared interval do nothing. -/
theorem runCtrl_ticks_dead (n : Nat) (st : EngineState)
    (h : st.countdownIntervalLive = false) : runCtrl st (ticks n) = (st, []) := by
  induction n with
  | zero => rfl
  | succ k ih =>
    rw [ticks_succ, runCtrl_cons]
    have hstep : ctrlStep st CtrlAction.tick = (st, []) := by
      show tickStart st = (st, [])
      unfold tickStart
      rw [h]
      simp
    rw [hstep]
    simp [ih]

/-- Fewer ticks than the countdown only decrement it and issue no
request. -/
theorem runCtrl_ticks_live (n : Nat) :
    ∀ st : EngineState, st.countdownIntervalLive = true → st.countdownTimerSet = true →
    st.isMeasurementRunning = false → (n : Int) < st.countdown →
    runCtrl st (ticks n) = ({ st with countdown := st.countdown - n }, []) := by
  induction n with
  | zero =>
    intro st h1 h2 h3 h4
    simp [ticks, runCtrl]
  | succ k ih =>
    intro st h1 h2 h3 h4
    push_cast at h4
    have hgt : ¬ (st.countdown - 1 ≤ 0) := by omega
    rw [ticks_succ, runCtrl_cons]
    rw [show ctrlStep st CtrlAction.tick = tickStart st from rfl, tickStart_step st h1 h3 hgt]
    rw [ih { st with countdown := st.countdown - 1 } h1 h2 h3 (by simp; omega)]
    simp only [Prod.mk.injEq, List.nil_append]
    refine ⟨?_, trivial⟩
    congr 1
    push_cast
    ring

/-- Enough ticks to exhaust a live countdown issue exactly one start
request, and the ticks beyond the expiry are no-ops. -/
theorem runCtrl_ticks_fire (n : Nat) :
    ∀ st : EngineState, st.countdownIntervalLive = true →
    st.isMeasurementRunning = false → 0 < st.countdown → st.countdown ≤ (n : Int) →
    (runCtrl st (ticks n)).2 = [START_REQUEST] := by
  induction n with
  | zero =>
    intro st h1 h3 h4 h5
    exfalso
    omega
  | succ k ih =>
    intro st h1 h3 h4 h5
    push_cast at h5
    rw [ticks_succ, runCtrl_cons]
    rw [show ctrlStep st CtrlAction.tick = tickStart st from rfl]
    by_cases hz : st.countdown - 1 ≤ 0
    · rw [tickStart_fire st h1 h3 hz]
      rw [runCtrl_ticks_dead k _ rfl]
      rfl
    · rw [tickStart_step st h1 h3 hz]
      rw [List.nil_append]
      exact ih { st with countdown := st.countdown - 1 } h1 h3 (by simp; omega)
        (by simp; omega)

/-- runCtrl distributes over list append. -/
theorem runCtrl_append (st : EngineState) (l1 l2 : List CtrlAction) :
    runCtrl st (l1 ++ l2)
      = ((runCtrl (runCtrl st l1).1 l2).1,
         (runCtrl st l1).2 ++ (runCtrl (runCtrl st l1).1 l2).2) := by
  induction l1 generalizing st with
  | nil => simp [runCtrl]
  | cons a rest ih =>
    simp only [List.cons_append, runCtrl_cons, ih, List.append_assoc]

/-- A start click on an idle controller arms the countdown at
START_DELAY without issuing a request. -/
theorem clickStart_fresh (st : EngineState) (h3 : st.isMeasurementRunning = false)
    (h2 : st.countdownTimerSet = false) :
    clickStart st
      = ({ st with
            countdown := START_DELAY
            countdownTimerSet := true
            countdownIntervalLive := true }, []) := by
  unfold clickStart
  simp [h3, h2]

/-- A click while the timer exists cancels it without issuing a
request. -/
theorem runCtrl_cancel_click (st : EngineState) (h3 : st.isMeasurementRunning = false)
    (h2 : st.countdownTimerSet = true) :
    runCtrl st [CtrlAction.click]
      = ({ st with
            countdown := START_DELAY
            countdownTimerSet := false
            countdownIntervalLive := false }, []) := by
  simp [runCtrl, ctrlStep, clickStart, h3, h2]

/-- State right after the arming click. -/
def armedState (st : EngineState) : EngineState :=
  { st with
      countdown := START_DELAY
      countdownTimerSet := true
      countdownIntervalLive := true }

/-- Processing a click from idle then a trace equals processing the
trace from the armed state. -/
theorem runCtrl_click_cons (st : EngineState) (l : List CtrlAction)
    (h3 : st.isMeasurementRunning = false) (h2 : st.countdownTimerSet = false) :
    runCtrl st (CtrlAction.click :: l) = runCtrl (armedState st) l := by
  rw [runCtrl_cons, show ctrlStep st CtrlAction.click = clickStart st from rfl,
      clickStart_fresh st h3 h2]
  show ((runCtrl (armedState st) l).1, [] ++ (runCtrl (armedState st) l).2)
      = runCtrl (armedState st) l
  rw [List.nil_append]

/-- A second click before the countdown expires cancels it: no request
and the timer is cleared. -/
theorem runCtrl_ticks_then_click (k : Nat) (st : EngineState)
    (h1 : st.countdownIntervalLive = true) (h2 : st.countdownTimerSet = true)
    (h3 : st.isMeasurementRunning = false) (hk : (k : Int) < st.countdown) :
    runCtrl st (ticks k ++ [CtrlAction.click])
      = ({ st with
            countdown := START_DELAY
            countdownTimerSet := false
            countdownIntervalLive := false }, []) := by
  rw [runCtrl_append, runCtrl_ticks_live k st h1 h2 h3 hk]
  show ((runCtrl { st with countdown := st.countdown - k } [CtrlAction.click]).1,
        [] ++ (runCtrl { st with countdown := st.countdown - k } [CtrlAction.click]).2)
      = ({ st with
            countdown := START_DELAY
            countdownTimerSet := false
            countdownIntervalLive := false }, [])
  rw [runCtrl_cancel_click { st with countdown := st.countdown - (k : Int) } h3 h2]
  rfl

/-- C9: from an idle controller, a start click followed by a second
click within the 5-tick countdown issues zero start requests and
returns the controller to idle; a start click whose countdown runs for
at least 5 ticks issues exactly one start request; and fewer than 5
ticks issue none, so one countdown cycle never issues two requests. -/
theorem c9_countdown_single_start (st : EngineState) (k n : Nat)
    (hrun : st.isMeasurementRunning = false)
    (htimer : st.countdownTimerSet = false)
    (_hlive : st.countdownIntervalLive = false) :
    (k < 5 →
      (runCtrl st (CtrlAction.click :: (ticks k ++ [CtrlAction.click]))).2 = []
      ∧ (runCtrl st (CtrlAction.click :: (ticks k ++ [CtrlAction.click]))).1.countdownTimerSet
          = false
      ∧ (runCtrl st (CtrlAction.click :: (ticks k ++ [CtrlAction.click]))).1.countdownIntervalLive
          = false)
    ∧ (5 ≤ n → (runCtrl st (CtrlAction.click :: ticks n)).2 = [START_REQUEST])
    ∧ (n < 5 → (runCtrl st (CtrlAction.click :: ticks n)).2 = []) := by
  refine ⟨?_, ?_, ?_⟩
  · intro hk
    rw [runCtrl_click_cons st _ hrun htimer,
        runCtrl_ticks_then_click k (armedState st) rfl rfl hrun
          (by show (k : Int) < (5 : Int); exact_mod_cast hk)]
    exact ⟨rfl, rfl, rfl⟩
  · intro hn
    rw [runCtrl_click_cons st _ hrun htimer]
    exact runCtrl_ticks_fire n (armedState st) rfl hrun
      (by show (0 : Int) < (5 : Int); norm_num)
      (by show (5 : Int) ≤ (n : Int); exact_mod_cast hn)
  · intro hn
    rw [runCtrl_click_cons st _ hrun htimer,
        runCtrl_ticks_live n (armedState st) rfl rfl hrun
          (by show (n : Int) < (5 : Int); exact_mod_cast hn)]

/-- Witness for C9 from the page-load state: cancelling after 2 ticks
issues nothing and expiry after 6 ticks issues one request. -/
theorem c9_countdown_single_start_witness :
    ((2 : Nat) < 5
      ∧ (runCtrl initEngineState
          (CtrlAction.click :: (ticks 2 ++ [CtrlAction.click]))).2 = [])
    ∧ ((5 : Nat) ≤ 6
      ∧ (runCtrl initEngineState (CtrlAction.click :: ticks 6)).2 = [START_REQUEST])
    ∧ ((4 : Nat) < 5
      ∧ (runCtrl initEngineState (CtrlAction.click :: ticks 4)).2 = []) :=
  ⟨⟨by decide,
    ((c9_countdown_single_start initEngineState 2 6 rfl rfl rfl).1 (by decide)).1⟩,
   ⟨by decide,
    (c9_countdown_single_start initEngineState 2 6 rfl rfl rfl).2.1 (by decide)⟩,
   ⟨by decide,
    (c9_countdown_single_start initEngineState 2 4 rfl rfl rfl).2.2 (by decide)⟩⟩

/-- One controller step changes the cycle counter by exactly the number
of requests it issues, all of them start requests. -/
theorem ctrlStep_cycle (st : EngineState) (a : CtrlAction) :
    (ctrlStep st a).1.measurementCycle = st.measurementCycle + (ctrlStep st a).2.length
    ∧ ∀ r ∈ (ctrlStep st a).2, r = START_REQUEST := by
  cases a with
  | click =>
    simp only [ctrlStep, clickStart]
    split_ifs <;> simp
  | tick =>
    simp only [ctrlStep, tickStart, startMeasurementStep]
    split_ifs <;> simp

/-- Over any controller trace the cycle counter grows by exactly the
number of issued requests, all of them start requests. -/
theorem runCtrl_cycle (acts : List CtrlAction) :
    ∀ st : EngineState,
    (runCtrl st acts).1.measurementCycle
      = st.measurementCycle + (runCtrl st acts).2.length
    ∧ ∀ r ∈ (runCtrl st acts).2, r = START_REQUEST := by
  induction acts with
  | nil =>
    intro st
    exact ⟨by simp [runCtrl], by simp [runCtrl]⟩
  | cons a rest ih =>
    intro st
    rw [runCtrl_cons]
    obtain ⟨hstep, hreq⟩ := ctrlStep_cycle st a
    obtain ⟨hrec, hrecreq⟩ := ih (ctrlStep st a).1
    constructor
    · simp only [List.length_append]
      omega
    · intro r hr
      rcases List.mem_append.mp hr with h | h
      · exact hreq r h
      · exact hrecreq r h

/-- C10 (amended): the measurement cycle counter grows by exactly one
per issued start request over any controller trace (all controller
outputs are start requests), it never decreases, the start response
handler changes nothing regardless of the ok flag, and event
reconciliation never touches the counter.  The counter is bumped when
the request is issued, before the backend reports success. -/
theorem c10_cycle_counts_requests (st : EngineState) (acts : List CtrlAction)
    (p : Option SSEEvent) (ok : Bool) :
    (runCtrl st acts).1.measurementCycle
        = st.measurementCycle + (runCtrl st acts).2.length
    ∧ (∀ r ∈ (runCtrl st acts).2, r = START_REQUEST)
    ∧ st.measurementCycle ≤ (runCtrl st acts).1.measurementCycle
    ∧ applyStartResponse st ok = st
    ∧ (reconcile p st).1.measurementCycle = st.measurementCycle := by
  obtain ⟨h1, h2⟩ := runCtrl_cycle acts st
  exact ⟨h1, h2, by omega, rfl, reconcile_measurementCycle p st⟩

/-- Witness for C10 on the trace that arms and expires one countdown. -/
theorem c10_cycle_counts_requests_witness :
    (runCtrl initEngineState (CtrlAction.click :: ticks 5)).1.measurementCycle
        = initEngineState.measurementCycle
          + (runCtrl initEngineState (CtrlAction.click :: ticks 5)).2.length
    ∧ START_REQUEST = START_REQUEST
    ∧ applyStartResponse initEngineState true = initEngineState :=
  ⟨(c10_cycle_counts_requests initEngineState (CtrlAction.click :: ticks 5) none true).1,
   (c10_cycle_counts_requests initEngineState (CtrlAction.click :: ticks 5) none true).2.1
     START_REQUEST (by decide),
   (c10_cycle_counts_requests initEngineState (CtrlAction.click :: ticks 5) none true).2.2.2.1⟩

/-- Counterexample to C10 as stated: a countdown that expires issues a
start request and bumps the counter to 1 even when the backend then
reports failure, so a start attempt that does not result in a
successfully started measurement still changes the counter. -/
theorem c10_failed_start_cex :
    (applyStartResponse (runCtrl initEngineState (CtrlAction.click :: ticks 5)).1
        false).measurementCycle = 1
    ∧ initEngineState.measurementCycle = 0
    ∧ (1 : Nat) ≠ 0 :=
  ⟨rfl, rfl, by decide⟩
